import Mathlib

/-!
Verification of the response-decomposition logic of an energy-data-hub SDK.

The source under study is a single Python module exposing
`parse_metering_poll_response`, with two inner decomposers
`__acknowledgement_decomposition` and `__metering_decomposition`.
The XML-to-tree step (xmltodict) is treated as an external given: the
functions here operate on the generic attribute tree it produces.

The embedding models:
  - the tree values (`XVal`): strings, mappings (insertion-ordered
    association lists, as Python dicts), sequences, and Python `None`;
  - Python dynamic operations used by the source: `dict.get` (raising
    AttributeError on non-mapping receivers), truthiness, iteration
    (a mapping iterates over its keys, a string over its characters),
    `dict.values()`, indexing, `int()` on strings;
  - `datetime.strptime` with the fixed format `%Y-%m-%dT%H:%M:%S%z`
    (seconds-bearing or fractional UTC offsets are not modelled),
    `datetime + timedelta(hours=n)` (with the OverflowError range check
    on the resulting year), and `datetime.isoformat`;
  - failure as `Except Err`, with one `Err` constructor per distinct
    Python exception the source can raise.
-/

/-- The distinct failure modes of the source module. -/
inductive Err where
  | attrError
  | typeError
  | valueError
  | indexError
  | overflowError
  | noData
deriving DecidableEq, Repr

abbrev Res (α : Type) : Type := Except Err α

/-- The generic attribute tree produced by the XML-to-tree step:
Python strings, dicts (insertion-ordered association lists), lists,
and the value None. -/
inductive XVal where
  | s : String → XVal
  | dict : List (String × XVal) → XVal
  | list : List XVal → XVal
  | null : XVal

/-- Python mapping lookup with an explicit default: raises AttributeError
unless the receiver is a mapping; a missing key yields the default. -/
def XVal.getD : XVal → String → XVal → Res XVal
  | .dict kvs, k, d => .ok ((kvs.lookup k).getD d)
  | _, _, _ => .error .attrError

/-- Python one-argument mapping lookup: a missing key yields None. -/
def XVal.get (v : XVal) (k : String) : Res XVal :=
  v.getD k XVal.null

/-- Python truthiness of a tree value. -/
def XVal.isTruthy : XVal → Bool
  | .null => false
  | .s t => !t.isEmpty
  | .dict kvs => !kvs.isEmpty
  | .list xs => !xs.isEmpty

/-- Python iteration: a list yields its elements, a mapping its keys,
a string its characters; None is not iterable. -/
def XVal.pyIter : XVal → Res (List XVal)
  | .list xs => .ok xs
  | .dict kvs => .ok (kvs.map fun kv => XVal.s kv.1)
  | .s t => .ok (t.toList.map fun c => XVal.s (String.mk [c]))
  | .null => .error .typeError

/-- Python dict.values(): raises AttributeError on non-mappings. -/
def XVal.pyValues : XVal → Res (List XVal)
  | .dict kvs => .ok (kvs.map Prod.snd)
  | _ => .error .attrError

/-- Python sequence indexing: IndexError when out of range. -/
def pyIndex (xs : List XVal) (i : Nat) : Res XVal :=
  match xs.get? i with
  | some v => .ok v
  | none => .error .indexError

/-- Value of a run of decimal digit characters. -/
def digitsToNat : List Char → Nat → Nat
  | [], acc => acc
  | c :: cs, acc => digitsToNat cs (acc * 10 + (c.toNat - 48))

/-- Strip leading and trailing whitespace characters. -/
def stripWs (cs : List Char) : List Char :=
  ((cs.dropWhile Char.isWhitespace).reverse.dropWhile Char.isWhitespace).reverse

/-- Python int() applied to a string: optional surrounding whitespace,
optional sign, then a nonempty run of digits (digit-group underscores
are not modelled). -/
def parseIntStr (t : String) : Option Int :=
  match stripWs t.toList with
  | '+' :: rest =>
    if rest ≠ [] ∧ rest.all Char.isDigit then some (digitsToNat rest 0) else none
  | '-' :: rest =>
    if rest ≠ [] ∧ rest.all Char.isDigit then some (-(digitsToNat rest 0 : Int)) else none
  | rest =>
    if rest ≠ [] ∧ rest.all Char.isDigit then some (digitsToNat rest 0) else none

/-- Python int() on a tree value: TypeError except on strings, ValueError
on a string that is not an integer literal. -/
def pyInt : XVal → Res Int
  | .s t =>
    match parseIntStr t with
    | some n => .ok n
    | none => .error .valueError
  | _ => .error .typeError

/-- A timezone-aware datetime as built by strptime with %z:
calendar fields plus a UTC offset in minutes. -/
structure PyDateTime where
  year : Int
  month : Nat
  day : Nat
  hour : Nat
  minute : Nat
  second : Nat
  tzMinutes : Int
deriving DecidableEq, Repr

/-- Leap-year rule of the proleptic Gregorian calendar. -/
def isLeapYear (y : Int) : Bool :=
  y % 4 == 0 && (y % 100 != 0 || y % 400 == 0)

/-- Number of days in a month. -/
def daysInMonth (y : Int) (m : Nat) : Nat :=
  if m == 2 then (if isLeapYear y then 29 else 28)
  else if m == 4 || m == 6 || m == 9 || m == 11 then 30
  else 31

/-- Days since 1970-01-01 of a civil date (proleptic Gregorian). -/
def daysFromCivil (y : Int) (m : Nat) (d : Nat) : Int :=
  let yAdj : Int := if m ≤ 2 then y - 1 else y
  let era : Int := yAdj.fdiv 400
  let yoe : Int := yAdj - era * 400
  let mp : Int := if m ≤ 2 then (m : Int) + 9 else (m : Int) - 3
  let doy : Int := (153 * mp + 2) / 5 + (d : Int) - 1
  let doe : Int := yoe * 365 + yoe / 4 - yoe / 100 + doy
  era * 146097 + doe - 719468

/-- Civil date from days since 1970-01-01 (inverse of daysFromCivil). -/
def civilFromDays (z0 : Int) : Int × Nat × Nat :=
  let z : Int := z0 + 719468
  let era : Int := z.fdiv 146097
  let doe : Int := z - era * 146097
  let yoe : Int := (doe - doe / 1460 + doe / 36524 - doe / 146096) / 365
  let y : Int := yoe + era * 400
  let doy : Int := doe - (365 * yoe + yoe / 4 - yoe / 100)
  let mp : Int := (5 * doy + 2) / 153
  let d : Int := doy - (153 * mp + 2) / 5 + 1
  let m : Int := if mp < 10 then mp + 3 else mp - 9
  (if m ≤ 2 then y + 1 else y, m.toNat, d.toNat)

/-- Wall-clock shift of a datetime by a whole number of hours
(tzinfo and sub-hour fields unchanged), total on the calendar. -/
def PyDateTime.shiftHours (dt : PyDateTime) (n : Int) : PyDateTime :=
  let total : Int := daysFromCivil dt.year dt.month dt.day * 24 + (dt.hour : Int) + n
  let day : Int := total.fdiv 24
  let h : Int := total - day * 24
  let c := civilFromDays day
  { dt with year := c.1, month := c.2.1, day := c.2.2, hour := h.toNat }

/-- Python datetime range validity (MINYEAR..MAXYEAR). -/
def PyDateTime.inRange (dt : PyDateTime) : Bool :=
  decide (1 ≤ dt.year) && decide (dt.year ≤ 9999)

/-- Python datetime + timedelta(hours=n): OverflowError when the result
falls outside the representable year range. -/
def PyDateTime.addHours (dt : PyDateTime) (n : Int) : Res PyDateTime :=
  let r := dt.shiftHours n
  if r.inRange then .ok r else .error .overflowError

/-- Two-digit zero padding. -/
def pad2 (n : Nat) : String :=
  if n < 10 then "0" ++ toString n else toString n

/-- Four-digit zero padding. -/
def pad4 (n : Nat) : String :=
  if n < 10 then "000" ++ toString n
  else if n < 100 then "00" ++ toString n
  else if n < 1000 then "0" ++ toString n
  else toString n

/-- Python datetime.isoformat() for a second-precision aware datetime:
date, time, and the UTC offset rendered as a signed HH:MM suffix. -/
def PyDateTime.isoformat (dt : PyDateTime) : String :=
  let date := pad4 dt.year.toNat ++ "-" ++ pad2 dt.month ++ "-" ++ pad2 dt.day
  let time := pad2 dt.hour ++ ":" ++ pad2 dt.minute ++ ":" ++ pad2 dt.second
  let sign := if dt.tzMinutes < 0 then "-" else "+"
  let a := dt.tzMinutes.natAbs
  date ++ "T" ++ time ++ sign ++ pad2 (a / 60) ++ ":" ++ pad2 (a % 60)

/-- Read exactly four digit characters. -/
def read4Digits : List Char → Option (Nat × List Char)
  | a :: b :: c :: d :: rest =>
    if a.isDigit && b.isDigit && c.isDigit && d.isDigit then
      some ((a.toNat - 48) * 1000 + (b.toNat - 48) * 100 + (c.toNat - 48) * 10 + (d.toNat - 48),
        rest)
    else none
  | _ => none

/-- Read a one-or-two-digit field, greedily preferring two digits when the
two-digit value is admissible, as the strptime field regexes do. -/
def readFlex (ok2 : Nat → Bool) (ok1 : Nat → Bool) : List Char → Option (Nat × List Char)
  | c1 :: c2 :: rest =>
    if c1.isDigit && c2.isDigit then
      let v := (c1.toNat - 48) * 10 + (c2.toNat - 48)
      if ok2 v then some (v, rest)
      else if ok1 (c1.toNat - 48) then some (c1.toNat - 48, c2 :: rest)
      else none
    else if c1.isDigit then
      if ok1 (c1.toNat - 48) then some (c1.toNat - 48, c2 :: rest) else none
    else none
  | [c1] =>
    if c1.isDigit then
      if ok1 (c1.toNat - 48) then some (c1.toNat - 48, []) else none
    else none
  | [] => none

/-- Match one literal character. -/
def litChar (c : Char) : List Char → Option (List Char)
  | x :: rest => if x == c then some rest else none
  | [] => none

/-- Read a %z UTC offset: a sign, two hour digits, an optional colon and
two minute digits (tens of minutes at most 5), or the literal Z.
Returns the offset in minutes. -/
def readTzOffset : List Char → Option (Int × List Char)
  | 'Z' :: rest => some (0, rest)
  | c :: rest =>
    if c == '+' || c == '-' then
      match rest with
      | a :: b :: rest2 =>
        if a.isDigit && b.isDigit then
          let hh := (a.toNat - 48) * 10 + (b.toNat - 48)
          let rest3 := match rest2 with
            | ':' :: r => r
            | r => r
          match rest3 with
          | m1 :: m2 :: rest4 =>
            if m1.isDigit && m2.isDigit && (m1.toNat - 48) ≤ 5 then
              let mm := (m1.toNat - 48) * 10 + (m2.toNat - 48)
              let total : Int := hh * 60 + mm
              some (if c == '-' then -total else total, rest4)
            else none
          | _ => none
        else none
      | _ => none
    else none
  | [] => none

/-- Python datetime.strptime with the fixed format %Y-%m-%dT%H:%M:%S%z,
including the datetime constructor validation (year at least 1, day
within month, second at most 59, offset strictly below 24 hours) and
the whole-input requirement. -/
def strptimeCore (t : String) : Option PyDateTime := do
  let cs := t.toList
  let (y, cs) ← read4Digits cs
  let cs ← litChar '-' cs
  let (mo, cs) ← readFlex (fun v => 1 ≤ v && v ≤ 12) (fun v => 1 ≤ v && v ≤ 9) cs
  let cs ← litChar '-' cs
  let (d, cs) ← readFlex (fun v => 1 ≤ v && v ≤ 31) (fun v => 1 ≤ v && v ≤ 9) cs
  let cs ← litChar 'T' cs
  let (h, cs) ← readFlex (fun v => v ≤ 23) (fun v => v ≤ 9) cs
  let cs ← litChar ':' cs
  let (mi, cs) ← readFlex (fun v => v ≤ 59) (fun v => v ≤ 9) cs
  let cs ← litChar ':' cs
  let (sec, cs) ← readFlex (fun v => v ≤ 61) (fun v => v ≤ 9) cs
  let (tz, cs) ← readTzOffset cs
  if cs.isEmpty ∧ 1 ≤ y ∧ d ≤ daysInMonth (y : Int) mo ∧ sec ≤ 59 ∧ tz.natAbs < 24 * 60 then
    pure ⟨(y : Int), mo, d, h, mi, sec, tz⟩
  else none

/-- strptime applied to a tree value: TypeError on non-strings,
ValueError on strings that do not match the format. -/
def strptimeTZ (v : XVal) : Res PyDateTime :=
  match v with
  | .s t =>
    match strptimeCore t with
    | some dt => .ok dt
    | none => .error .valueError
  | _ => .error .typeError

/-- Left-to-right effectful map over a list, aborting on the first
failure, as a Python list comprehension does. -/
def mapRes (f : XVal → Res XVal) : List XVal → Res (List XVal)
  | [] => .ok []
  | x :: xs => do
    let y ← f x
    let ys ← mapRes f xs
    pure (y :: ys)

@[simp] theorem res_bind_ok {α β : Type} (a : α) (f : α → Res β) :
    (Except.ok a : Res α) >>= f = f a := rfl

@[simp] theorem res_bind_error {α β : Type} (e : Err) (f : α → Res β) :
    (Except.error e : Res α) >>= f = (Except.error e : Res β) := rfl

@[simp] theorem res_pure {α : Type} (a : α) :
    (pure a : Res α) = Except.ok a := rfl

/-- The body of the observation list comprehension in
__metering_decomposition (source lines 118-129): one item of the
Observation collection becomes one timestamp/value mapping; when the
item has no truthy Metered field the value is the inner text of the
item's second entry. -/
def observationItem (start_time : PyDateTime) (e : XVal) : Res XVal := do
  let cond ← e.get "Metered"
  if cond.isTruthy then
    let seqRaw ← e.get "@Sequence"
    let n ← pyInt seqRaw
    let ts ← start_time.addHours n
    let v ← e.get "Metered"
    pure (XVal.dict [("timestamp", XVal.s ts.isoformat), ("value", v)])
  else
    let seqRaw ← e.get "@Sequence"
    let n ← pyInt seqRaw
    let ts ← start_time.addHours n
    let vals ← e.pyValues
    let second ← pyIndex vals 1
    let txt ← second.get "#text"
    pure (XVal.dict [("timestamp", XVal.s ts.isoformat), ("value", txt)])

/-- Embedding of __acknowledgement_decomposition (source lines 20-73):
pure field extraction in source order, building the six-field
acknowledgement record. -/
def __acknowledgement_decomposition (acknowledgement_dict : XVal) : Res XVal := do
  let timestamp ← (← acknowledgement_dict.get "Header").get "Creation"
  let identification ← (← acknowledgement_dict.get "Header").get "Identification"
  let energy_business_process ←
    (← (← acknowledgement_dict.get "ProcessEnergyContext").get "EnergyBusinessProcess").get "#text"
  let status_type ←
    (← (← acknowledgement_dict.get "PayloadResponseEvent").get "StatusType").get "#text"
  let response_reason_type ←
    (← (← acknowledgement_dict.get "PayloadResponseEvent").get "ResponseReasonType").get "#text"
  let original_business_document_reference ←
    (← acknowledgement_dict.get "PayloadResponseEvent").get "OriginalBusinessDocumentReference"
  pure (XVal.dict
    [("timestamp", timestamp),
     ("identification", identification),
     ("energy_business_process", energy_business_process),
     ("status_type", status_type),
     ("response_reason_type", response_reason_type),
     ("original_business_document_reference", original_business_document_reference)])

/-- Embedding of __metering_decomposition (source lines 75-140):
fixed-path field extraction in source order, then the branch on the
observation encoding (Observation time series, else ProfiledObservation,
else the record is replaced by None). -/
def __metering_decomposition (metering_dict : XVal) : Res XVal := do
  let metering_point ←
    (← (← (← metering_dict.get "PayloadEnergyTimeSeries").get
        "MeteringPointUsedDomainLocation").get "Identification").get "#text"
  let timestamp ← (← metering_dict.get "Header").get "Creation"
  let identification ← (← metering_dict.get "Header").get "Identification"
  let energy_business_process ←
    (← (← metering_dict.get "ProcessEnergyContext").get "EnergyBusinessProcess").get "#text"
  let start_time_raw ←
    (← (← metering_dict.get "PayloadEnergyTimeSeries").get
        "ObservationPeriodTimeSeriesPeriod").get "Start"
  let end_time_raw ←
    (← (← metering_dict.get "PayloadEnergyTimeSeries").get
        "ObservationPeriodTimeSeriesPeriod").get "End"
  let resolution_raw ←
    (← (← metering_dict.get "PayloadEnergyTimeSeries").get
        "ObservationPeriodTimeSeriesPeriod").get "ResolutionDuration"
  let unit_raw ←
    (← (← metering_dict.get "PayloadEnergyTimeSeries").get
        "ProductIncludedProductCharacteristics").get "UnitType"
  let obsCond ← (← metering_dict.get "PayloadEnergyTimeSeries").get "Observation"
  if obsCond.isTruthy then
    let start_time ← strptimeTZ start_time_raw
    let obsItems ← obsCond.pyIter
    let observations ← mapRes (observationItem start_time) obsItems
    pure (XVal.dict
      [("metering_point", metering_point),
       ("timestamp", timestamp),
       ("identification", identification),
       ("energy_business_process", energy_business_process),
       ("start_time", start_time_raw),
       ("end_time", end_time_raw),
       ("resolution", resolution_raw),
       ("unit", unit_raw),
       ("observations", XVal.list observations)])
  else
    let profCond ← (← metering_dict.get "PayloadEnergyTimeSeries").get "ProfiledObservation"
    if profCond.isTruthy then
      let start_time ← strptimeTZ start_time_raw
      let metered ← profCond.get "Metered"
      let txt ← metered.get "#text"
      pure (XVal.dict
        [("metering_point", metering_point),
         ("timestamp", timestamp),
         ("identification", identification),
         ("energy_business_process", energy_business_process),
         ("start_time", start_time_raw),
         ("end_time", end_time_raw),
         ("resolution", resolution_raw),
         ("unit", unit_raw),
         ("observations", XVal.dict
           [("timestamp", XVal.s start_time.isoformat), ("value", txt)])])
    else
      pure XVal.null

/-- The isinstance(x, dict) single-occurrence wrap of source lines
173-174 and 179-180. -/
def wrapIfDict : XVal → XVal
  | .dict kvs => .list [.dict kvs]
  | v => v

/-- Extraction of one record collection from ResultDataSet (source lines
169-180): absent key defaults to an empty sequence, a single mapping is
wrapped into a one-element sequence. -/
def extractCollection (result_data_set : XVal) (key : String) : Res XVal := do
  let v ← result_data_set.getD key (XVal.list [])
  pure (wrapIfDict v)

/-- Embedding of parse_metering_poll_response (source lines 142-186),
taking the already-converted tree: fixed-path envelope navigation, the
no-data check, collection normalization, and the two decompositions. -/
def parse_metering_poll_response (json_response : XVal) : Res XVal := do
  let result_data_set ←
    (← (← (← json_response.get "Envelope").get "Body").get
        "PollForDataResponse").getD "ResultDataSet" XVal.null
  if result_data_set.isTruthy = false then
    Except.error Err.noData
  else
    let acknowledgment ← extractCollection result_data_set "Acknowledgement"
    let metering ← extractCollection result_data_set "NotifyValidatedDataForBillingEnergy"
    let meteringItems ← metering.pyIter
    let metering_list ← mapRes __metering_decomposition meteringItems
    let ackItems ← acknowledgment.pyIter
    let acknowledgment_list ← mapRes __acknowledgement_decomposition ackItems
    pure (XVal.dict
      [("meterings", XVal.list metering_list),
       ("acknowledgements", XVal.list acknowledgment_list)])

/-! ## Fixtures used to state the claims -/

/-- A metering record tree with all fixed extraction paths present and
given leaf values; the observation encodings are supplied as the values
of the Observation and ProfiledObservation keys (XVal.null for absent). -/
def mkMeteringInput (mp cr idv ebp startv endv resolv unitv obsv profv : XVal) : XVal :=
  XVal.dict
    [("Header", XVal.dict [("Creation", cr), ("Identification", idv)]),
     ("ProcessEnergyContext", XVal.dict
       [("EnergyBusinessProcess", XVal.dict [("#text", ebp)])]),
     ("PayloadEnergyTimeSeries", XVal.dict
       [("MeteringPointUsedDomainLocation", XVal.dict
          [("Identification", XVal.dict [("#text", mp)])]),
        ("ObservationPeriodTimeSeriesPeriod", XVal.dict
          [("Start", startv), ("End", endv), ("ResolutionDuration", resolv)]),
        ("ProductIncludedProductCharacteristics", XVal.dict [("UnitType", unitv)]),
        ("Observation", obsv),
        ("ProfiledObservation", profv)])]

/-- The metering record produced by __metering_decomposition when all
extractions succeed, with the given observations payload. -/
def mkMeteringOutput (mp cr idv ebp startv endv resolv unitv obs : XVal) : XVal :=
  XVal.dict
    [("metering_point", mp),
     ("timestamp", cr),
     ("identification", idv),
     ("energy_business_process", ebp),
     ("start_time", startv),
     ("end_time", endv),
     ("resolution", resolv),
     ("unit", unitv),
     ("observations", obs)]

/-- An input tree whose fixed envelope path is present and whose
ResultDataSet is the given value. -/
def mkEnvelope (rds : XVal) : XVal :=
  XVal.dict
    [("Envelope", XVal.dict
      [("Body", XVal.dict
        [("PollForDataResponse", XVal.dict [("ResultDataSet", rds)])])])]

/-- Encoding of one Observation item carrying a sequence attribute
string and a Metered value. -/
def obsEncode (p : String × Int × XVal) : XVal :=
  XVal.dict [("@Sequence", XVal.s p.1), ("Metered", p.2.2)]

/-- The timestamp/value mapping the decomposer is expected to produce
for one encoded Observation item, given the parsed start time. -/
def obsExpected (st : PyDateTime) (p : String × Int × XVal) : XVal :=
  XVal.dict
    [("timestamp", XVal.s (st.shiftHours p.2.1).isoformat),
     ("value", p.2.2)]

/-! ## Helper lemmas -/

theorem mapRes_length (f : XVal → Res XVal) :
    ∀ (xs ys : List XVal), mapRes f xs = .ok ys → ys.length = xs.length := by
  intro xs
  induction xs with
  | nil =>
    intro ys h
    simp only [mapRes] at h
    cases h
    rfl
  | cons x xs ih =>
    intro ys h
    simp only [mapRes] at h
    cases hx : f x with
    | error e => rw [hx] at h; simp at h
    | ok y =>
      rw [hx] at h
      cases hxs : mapRes f xs with
      | error e => rw [hxs] at h; simp at h
      | ok ys2 =>
        rw [hxs] at h
        simp only [res_bind_ok, res_pure] at h
        cases h
        simp [ih ys2 hxs]

theorem mapRes_get (f : XVal → Res XVal) :
    ∀ (xs ys : List XVal), mapRes f xs = .ok ys →
      ∀ (i : Nat) (x y : XVal), xs.get? i = some x → ys.get? i = some y → f x = .ok y := by
  intro xs
  induction xs with
  | nil =>
    intro ys h i x y hx hy
    simp at hx
  | cons a xs ih =>
    intro ys h i x y hx hy
    simp only [mapRes] at h
    cases ha : f a with
    | error e => rw [ha] at h; simp at h
    | ok b =>
      rw [ha] at h
      cases hxs : mapRes f xs with
      | error e => rw [hxs] at h; simp at h
      | ok ys2 =>
        rw [hxs] at h
        simp only [res_bind_ok, res_pure] at h
        cases h
        cases i with
        | zero =>
          simp only [List.get?] at hx hy
          cases hx; cases hy
          exact ha
        | succ j =>
          simp only [List.get?] at hx hy
          exact ih ys2 hxs j x y hx hy

/-! ## Claims -/

/-- C2: extractCollection — the collection-normalization step applied by
parse_metering_poll_response to the Acknowledgement and
NotifyValidatedDataForBillingEnergy children of ResultDataSet — yields
an empty sequence for an absent child, a one-element sequence for a
single-mapping child, and passes an already-multiple child through
unchanged, so decomposition only ever iterates a sequence. -/
theorem c2_collection_normalization (kvs : List (String × XVal)) (key : String) :
    (kvs.lookup key = none →
      extractCollection (XVal.dict kvs) key = .ok (XVal.list [])) ∧
    (∀ m : List (String × XVal), kvs.lookup key = some (XVal.dict m) →
      extractCollection (XVal.dict kvs) key = .ok (XVal.list [XVal.dict m])) ∧
    (∀ xs : List XVal, kvs.lookup key = some (XVal.list xs) →
      extractCollection (XVal.dict kvs) key = .ok (XVal.list xs)) := by
  refine ⟨?_, ?_, ?_⟩
  · intro h
    simp [extractCollection, XVal.getD, h, wrapIfDict]
  · intro m h
    simp [extractCollection, XVal.getD, h, wrapIfDict]
  · intro xs h
    simp [extractCollection, XVal.getD, h, wrapIfDict]

/-- Witness for C2 at a concrete ResultDataSet: a single-mapping
Acknowledgement child is wrapped into a one-element sequence, and the
absent NotifyValidatedDataForBillingEnergy child yields an empty one. -/
theorem c2_collection_normalization_witness :
    extractCollection (XVal.dict [("Acknowledgement", XVal.dict [("Header", XVal.null)])])
        "Acknowledgement"
      = .ok (XVal.list [XVal.dict [("Header", XVal.null)]]) ∧
    extractCollection (XVal.dict [("Acknowledgement", XVal.dict [("Header", XVal.null)])])
        "NotifyValidatedDataForBillingEnergy"
      = .ok (XVal.list []) :=
  ⟨(c2_collection_normalization _ _).2.1 _ rfl,
   (c2_collection_normalization _ _).1 rfl⟩

/-- C3: when the Envelope.Body.PollForDataResponse path is present but
ResultDataSet is absent or empty (falsy), parse_metering_poll_response
fails with the dedicated no-data error and returns no partial result. -/
theorem c3_no_data_on_empty_result (t env body pfd : List (String × XVal))
    (henv : t.lookup "Envelope" = some (XVal.dict env))
    (hbody : env.lookup "Body" = some (XVal.dict body))
    (hpfd : body.lookup "PollForDataResponse" = some (XVal.dict pfd))
    (hrds : pfd.lookup "ResultDataSet" = none ∨
      ∃ v, pfd.lookup "ResultDataSet" = some v ∧ v.isTruthy = false) :
    parse_metering_poll_response (XVal.dict t) = .error Err.noData := by
  rcases hrds with h | ⟨v, hv, hf⟩
  · simp [parse_metering_poll_response, XVal.get, XVal.getD,
      henv, hbody, hpfd, h, XVal.isTruthy]
  · simp [parse_metering_poll_response, XVal.get, XVal.getD,
      henv, hbody, hpfd, hv, hf]

/-- Witness for C3 at a concrete tree with an empty ResultDataSet. -/
theorem c3_no_data_on_empty_result_witness :
    parse_metering_poll_response
      (XVal.dict [("Envelope", XVal.dict
        [("Body", XVal.dict
          [("PollForDataResponse", XVal.dict [("ResultDataSet", XVal.dict [])])])])])
      = .error Err.noData :=
  c3_no_data_on_empty_result _ _ _ _ rfl rfl rfl (Or.inr ⟨XVal.dict [], rfl, rfl⟩)

/-- C4: a tree missing any node of the fixed path
Envelope.Body.PollForDataResponse makes parse_metering_poll_response
fail with the attribute error, which is a distinct failure mode from the
no-data error and is propagated to the caller. -/
theorem c4_malformed_path_error (t : List (String × XVal)) :
    (t.lookup "Envelope" = none →
      parse_metering_poll_response (XVal.dict t) = .error Err.attrError) ∧
    (∀ env : List (String × XVal), t.lookup "Envelope" = some (XVal.dict env) →
      env.lookup "Body" = none →
      parse_metering_poll_response (XVal.dict t) = .error Err.attrError) ∧
    (∀ (env body : List (String × XVal)), t.lookup "Envelope" = some (XVal.dict env) →
      env.lookup "Body" = some (XVal.dict body) →
      body.lookup "PollForDataResponse" = none →
      parse_metering_poll_response (XVal.dict t) = .error Err.attrError) ∧
    Err.attrError ≠ Err.noData := by
  refine ⟨?_, ?_, ?_, by decide⟩
  · intro h
    simp [parse_metering_poll_response, XVal.get, XVal.getD, h]
  · intro env henv h
    simp [parse_metering_poll_response, XVal.get, XVal.getD, henv, h]
  · intro env body henv hbody h
    simp [parse_metering_poll_response, XVal.get, XVal.getD, henv, hbody, h]

/-- Witness for C4 at a concrete tree with no Envelope node. -/
theorem c4_malformed_path_error_witness :
    parse_metering_poll_response (XVal.dict []) = .error Err.attrError ∧
    Err.attrError ≠ Err.noData :=
  ⟨(c4_malformed_path_error []).1 rfl, (c4_malformed_path_error []).2.2.2⟩

/-- Chained one-argument lookups along a fixed path. -/
def getPath (v : XVal) : List String → Res XVal
  | [] => .ok v
  | k :: ks => do
    let w ← v.get k
    getPath w ks

/-- C9: __acknowledgement_decomposition is pure field extraction: whenever
it succeeds, the result is the full six-field record, with timestamp and
identification read from Header, the business process text from
ProcessEnergyContext, status and reason texts from PayloadResponseEvent,
and the original business document reference taken verbatim (as a whole
subtree) from PayloadResponseEvent; it never produces a partial record. -/
theorem c9_ack_full_record_or_fail (d r : XVal)
    (h : __acknowledgement_decomposition d = .ok r) :
    ∃ ts idv ebp stv rrt obdr,
      r = XVal.dict
        [("timestamp", ts),
         ("identification", idv),
         ("energy_business_process", ebp),
         ("status_type", stv),
         ("response_reason_type", rrt),
         ("original_business_document_reference", obdr)] ∧
      getPath d ["Header", "Creation"] = .ok ts ∧
      getPath d ["Header", "Identification"] = .ok idv ∧
      getPath d ["ProcessEnergyContext", "EnergyBusinessProcess", "#text"] = .ok ebp ∧
      getPath d ["PayloadResponseEvent", "StatusType", "#text"] = .ok stv ∧
      getPath d ["PayloadResponseEvent", "ResponseReasonType", "#text"] = .ok rrt ∧
      getPath d ["PayloadResponseEvent", "OriginalBusinessDocumentReference"] = .ok obdr := by
  unfold __acknowledgement_decomposition at h
  cases h1 : d.get "Header" with
  | error e => rw [h1] at h; simp at h
  | ok hd =>
  rw [h1] at h
  simp only [res_bind_ok] at h
  cases h2 : hd.get "Creation" with
  | error e => rw [h2] at h; simp at h
  | ok ts =>
  rw [h2] at h
  simp only [res_bind_ok] at h
  cases h3 : hd.get "Identification" with
  | error e => rw [h3] at h; simp at h
  | ok idv =>
  rw [h3] at h
  simp only [res_bind_ok] at h
  cases h4 : d.get "ProcessEnergyContext" with
  | error e => rw [h4] at h; simp at h
  | ok pec =>
  rw [h4] at h
  simp only [res_bind_ok] at h
  cases h5 : pec.get "EnergyBusinessProcess" with
  | error e => rw [h5] at h; simp at h
  | ok ebp0 =>
  rw [h5] at h
  simp only [res_bind_ok] at h
  cases h6 : ebp0.get "#text" with
  | error e => rw [h6] at h; simp at h
  | ok ebp =>
  rw [h6] at h
  simp only [res_bind_ok] at h
  cases h7 : d.get "PayloadResponseEvent" with
  | error e => rw [h7] at h; simp at h
  | ok pre =>
  rw [h7] at h
  simp only [res_bind_ok] at h
  cases h8 : pre.get "StatusType" with
  | error e => rw [h8] at h; simp at h
  | ok stv0 =>
  rw [h8] at h
  simp only [res_bind_ok] at h
  cases h9 : stv0.get "#text" with
  | error e => rw [h9] at h; simp at h
  | ok stv =>
  rw [h9] at h
  simp only [res_bind_ok] at h
  cases h10 : pre.get "ResponseReasonType" with
  | error e => rw [h10] at h; simp at h
  | ok rrt0 =>
  rw [h10] at h
  simp only [res_bind_ok] at h
  cases h11 : rrt0.get "#text" with
  | error e => rw [h11] at h; simp at h
  | ok rrt =>
  rw [h11] at h
  simp only [res_bind_ok] at h
  cases h12 : pre.get "OriginalBusinessDocumentReference" with
  | error e => rw [h12] at h; simp at h
  | ok obdr =>
  rw [h12] at h
  simp only [res_bind_ok, res_pure] at h
  cases h
  exact ⟨ts, idv, ebp, stv, rrt, obdr, rfl,
    by simp [getPath, h1, h2],
    by simp [getPath, h1, h3],
    by simp [getPath, h4, h5, h6],
    by simp [getPath, h7, h8, h9],
    by simp [getPath, h7, h10, h11],
    by simp [getPath, h7, h12]⟩

/-- Witness for C9 at a concrete acknowledgement node. -/
theorem c9_ack_full_record_or_fail_witness :
    ∃ ts idv ebp stv rrt obdr,
      XVal.dict
        [("timestamp", XVal.s "2023-01-02T10:00:00Z"),
         ("identification", XVal.s "ack-1"),
         ("energy_business_process", XVal.s "BRS-NO-313"),
         ("status_type", XVal.s "OK"),
         ("response_reason_type", XVal.s "E29"),
         ("original_business_document_reference", XVal.dict [("Ident", XVal.s "orig-7")])]
        = XVal.dict
        [("timestamp", ts),
         ("identification", idv),
         ("energy_business_process", ebp),
         ("status_type", stv),
         ("response_reason_type", rrt),
         ("original_business_document_reference", obdr)] ∧
      getPath (XVal.dict
        [("Header", XVal.dict
          [("Creation", XVal.s "2023-01-02T10:00:00Z"),
           ("Identification", XVal.s "ack-1")]),
         ("ProcessEnergyContext", XVal.dict
          [("EnergyBusinessProcess", XVal.dict [("#text", XVal.s "BRS-NO-313")])]),
         ("PayloadResponseEvent", XVal.dict
          [("StatusType", XVal.dict [("#text", XVal.s "OK")]),
           ("ResponseReasonType", XVal.dict [("#text", XVal.s "E29")]),
           ("OriginalBusinessDocumentReference", XVal.dict [("Ident", XVal.s "orig-7")])])])
        ["Header", "Creation"] = .ok ts ∧
      getPath (XVal.dict
        [("Header", XVal.dict
          [("Creation", XVal.s "2023-01-02T10:00:00Z"),
           ("Identification", XVal.s "ack-1")]),
         ("ProcessEnergyContext", XVal.dict
          [("EnergyBusinessProcess", XVal.dict [("#text", XVal.s "BRS-NO-313")])]),
         ("PayloadResponseEvent", XVal.dict
          [("StatusType", XVal.dict [("#text", XVal.s "OK")]),
           ("ResponseReasonType", XVal.dict [("#text", XVal.s "E29")]),
           ("OriginalBusinessDocumentReference", XVal.dict [("Ident", XVal.s "orig-7")])])])
        ["Header", "Identification"] = .ok idv ∧
      getPath (XVal.dict
        [("Header", XVal.dict
          [("Creation", XVal.s "2023-01-02T10:00:00Z"),
           ("Identification", XVal.s "ack-1")]),
         ("ProcessEnergyContext", XVal.dict
          [("EnergyBusinessProcess", XVal.dict [("#text", XVal.s "BRS-NO-313")])]),
         ("PayloadResponseEvent", XVal.dict
          [("StatusType", XVal.dict [("#text", XVal.s "OK")]),
           ("ResponseReasonType", XVal.dict [("#text", XVal.s "E29")]),
           ("OriginalBusinessDocumentReference", XVal.dict [("Ident", XVal.s "orig-7")])])])
        ["ProcessEnergyContext", "EnergyBusinessProcess", "#text"] = .ok ebp ∧
      getPath (XVal.dict
        [("Header", XVal.dict
          [("Creation", XVal.s "2023-01-02T10:00:00Z"),
           ("Identification", XVal.s "ack-1")]),
         ("ProcessEnergyContext", XVal.dict
          [("EnergyBusinessProcess", XVal.dict [("#text", XVal.s "BRS-NO-313")])]),
         ("PayloadResponseEvent", XVal.dict
          [("StatusType", XVal.dict [("#text", XVal.s "OK")]),
           ("ResponseReasonType", XVal.dict [("#text", XVal.s "E29")]),
           ("OriginalBusinessDocumentReference", XVal.dict [("Ident", XVal.s "orig-7")])])])
        ["PayloadResponseEvent", "StatusType", "#text"] = .ok stv ∧
      getPath (XVal.dict
        [("Header", XVal.dict
          [("Creation", XVal.s "2023-01-02T10:00:00Z"),
           ("Identification", XVal.s "ack-1")]),
         ("ProcessEnergyContext", XVal.dict
          [("EnergyBusinessProcess", XVal.dict [("#text", XVal.s "BRS-NO-313")])]),
         ("PayloadResponseEvent", XVal.dict
          [("StatusType", XVal.dict [("#text", XVal.s "OK")]),
           ("ResponseReasonType", XVal.dict [("#text", XVal.s "E29")]),
           ("OriginalBusinessDocumentReference", XVal.dict [("Ident", XVal.s "orig-7")])])])
        ["PayloadResponseEvent", "ResponseReasonType", "#text"] = .ok rrt ∧
      getPath (XVal.dict
        [("Header", XVal.dict
          [("Creation", XVal.s "2023-01-02T10:00:00Z"),
           ("Identification", XVal.s "ack-1")]),
         ("ProcessEnergyContext", XVal.dict
          [("EnergyBusinessProcess", XVal.dict [("#text", XVal.s "BRS-NO-313")])]),
         ("PayloadResponseEvent", XVal.dict
          [("StatusType", XVal.dict [("#text", XVal.s "OK")]),
           ("ResponseReasonType", XVal.dict [("#text", XVal.s "E29")]),
           ("OriginalBusinessDocumentReference", XVal.dict [("Ident", XVal.s "orig-7")])])])
        ["PayloadResponseEvent", "OriginalBusinessDocumentReference"] = .ok obdr :=
  c9_ack_full_record_or_fail _ _ rfl

/-- C7: a metering record whose fixed extraction paths are present but
which has neither a truthy Observation nor a truthy ProfiledObservation
decomposes without failing, to the absent placeholder (None); and at the
parse level the meterings output has exactly one entry per source
record, so placeholders preserve the source record count. -/
theorem c7_missing_shapes_null_placeholder
    (mp cr idv ebp startv endv resolv unitv obsv profv : XVal)
    (rs vs : List XVal)
    (hobs : obsv.isTruthy = false) (hprof : profv.isTruthy = false) :
    __metering_decomposition
        (mkMeteringInput mp cr idv ebp startv endv resolv unitv obsv profv)
      = .ok XVal.null ∧
    (mapRes __metering_decomposition rs = .ok vs →
      vs.length = rs.length ∧
      parse_metering_poll_response (mkEnvelope (XVal.dict
          [("NotifyValidatedDataForBillingEnergy", XVal.list rs)]))
        = .ok (XVal.dict
            [("meterings", XVal.list vs), ("acknowledgements", XVal.list [])])) := by
  constructor
  · simp [__metering_decomposition, mkMeteringInput, XVal.get, XVal.getD,
      List.lookup, hobs, hprof]
  · intro h
    refine ⟨mapRes_length _ rs vs h, ?_⟩
    simp [parse_metering_poll_response, mkEnvelope, XVal.get, XVal.getD,
      List.lookup, XVal.isTruthy, extractCollection, wrapIfDict, XVal.pyIter,
      h, mapRes]

/-- Witness for C7: a concrete record with neither observation shape
becomes a null placeholder and the meterings length is preserved. -/
theorem c7_missing_shapes_null_placeholder_witness :
    __metering_decomposition
        (mkMeteringInput (XVal.s "mp1") (XVal.s "c1") (XVal.s "id1") (XVal.s "ebp1")
          (XVal.s "2023-01-01T00:00:00+01:00") (XVal.s "end1") (XVal.s "PT1H")
          (XVal.s "KWH") XVal.null XVal.null)
      = .ok XVal.null ∧
    (mapRes __metering_decomposition
        [mkMeteringInput (XVal.s "mp1") (XVal.s "c1") (XVal.s "id1") (XVal.s "ebp1")
          (XVal.s "2023-01-01T00:00:00+01:00") (XVal.s "end1") (XVal.s "PT1H")
          (XVal.s "KWH") XVal.null XVal.null]
      = .ok [XVal.null] →
      ([XVal.null] : List XVal).length =
        [mkMeteringInput (XVal.s "mp1") (XVal.s "c1") (XVal.s "id1") (XVal.s "ebp1")
          (XVal.s "2023-01-01T00:00:00+01:00") (XVal.s "end1") (XVal.s "PT1H")
          (XVal.s "KWH") XVal.null XVal.null].length ∧
      parse_metering_poll_response (mkEnvelope (XVal.dict
          [("NotifyValidatedDataForBillingEnergy", XVal.list
            [mkMeteringInput (XVal.s "mp1") (XVal.s "c1") (XVal.s "id1") (XVal.s "ebp1")
              (XVal.s "2023-01-01T00:00:00+01:00") (XVal.s "end1") (XVal.s "PT1H")
              (XVal.s "KWH") XVal.null XVal.null])]))
        = .ok (XVal.dict
            [("meterings", XVal.list [XVal.null]),
             ("acknowledgements", XVal.list [])])) :=
  c7_missing_shapes_null_placeholder (XVal.s "mp1") (XVal.s "c1") (XVal.s "id1")
    (XVal.s "ebp1") (XVal.s "2023-01-01T00:00:00+01:00") (XVal.s "end1") (XVal.s "PT1H")
    (XVal.s "KWH") XVal.null XVal.null _ _ rfl rfl

/-- C8: parse_metering_poll_response maps the source-order sequence of
NotifyValidatedDataForBillingEnergy nodes to the meterings output and
the source-order sequence of Acknowledgement nodes to the
acknowledgements output, index by index: output record i is the
decomposition of source record i, and the lengths agree. -/
theorem c8_source_order_preserved (as rs vs ws : List XVal)
    (hm : mapRes __metering_decomposition rs = .ok vs)
    (ha : mapRes __acknowledgement_decomposition as = .ok ws) :
    parse_metering_poll_response (mkEnvelope (XVal.dict
        [("Acknowledgement", XVal.list as),
         ("NotifyValidatedDataForBillingEnergy", XVal.list rs)]))
      = .ok (XVal.dict
          [("meterings", XVal.list vs), ("acknowledgements", XVal.list ws)]) ∧
    vs.length = rs.length ∧ ws.length = as.length ∧
    (∀ (i : Nat) (x y : XVal), rs.get? i = some x → vs.get? i = some y →
      __metering_decomposition x = .ok y) ∧
    (∀ (i : Nat) (x y : XVal), as.get? i = some x → ws.get? i = some y →
      __acknowledgement_decomposition x = .ok y) := by
  refine ⟨?_, mapRes_length _ rs vs hm, mapRes_length _ as ws ha,
    fun i x y hx hy => mapRes_get _ rs vs hm i x y hx hy,
    fun i x y hx hy => mapRes_get _ as ws ha i x y hx hy⟩
  simp [parse_metering_poll_response, mkEnvelope, XVal.get, XVal.getD,
    List.lookup, XVal.isTruthy, extractCollection, wrapIfDict, XVal.pyIter,
    hm, ha]

/-- Witness for C8: two metering records and one acknowledgement come out
in source order, with index-wise decomposition. -/
theorem c8_source_order_preserved_witness :
    parse_metering_poll_response (mkEnvelope (XVal.dict
        [("Acknowledgement", XVal.list
          [XVal.dict
            [("Header", XVal.dict
              [("Creation", XVal.s "cAck"), ("Identification", XVal.s "idAck")]),
             ("ProcessEnergyContext", XVal.dict
              [("EnergyBusinessProcess", XVal.dict [("#text", XVal.s "eAck")])]),
             ("PayloadResponseEvent", XVal.dict
              [("StatusType", XVal.dict [("#text", XVal.s "OK")]),
               ("ResponseReasonType", XVal.dict [("#text", XVal.s "E29")]),
               ("OriginalBusinessDocumentReference", XVal.s "orig")])]]),
         ("NotifyValidatedDataForBillingEnergy", XVal.list
          [mkMeteringInput (XVal.s "mpA") (XVal.s "cA") (XVal.s "idA") (XVal.s "eA")
            (XVal.s "sA") (XVal.s "endA") (XVal.s "PT1H") (XVal.s "KWH")
            XVal.null XVal.null,
           mkMeteringInput (XVal.s "mpB") (XVal.s "cB") (XVal.s "idB") (XVal.s "eB")
            (XVal.s "2023-06-01T00:00:00+02:00") (XVal.s "endB") (XVal.s "PT1H")
            (XVal.s "KWH") XVal.null
            (XVal.dict [("Metered", XVal.dict [("#text", XVal.s "9.9")])])])]))
      = .ok (XVal.dict
          [("meterings", XVal.list
            [XVal.null,
             mkMeteringOutput (XVal.s "mpB") (XVal.s "cB") (XVal.s "idB") (XVal.s "eB")
              (XVal.s "2023-06-01T00:00:00+02:00") (XVal.s "endB") (XVal.s "PT1H")
              (XVal.s "KWH")
              (XVal.dict
                [("timestamp", XVal.s "2023-06-01T00:00:00+02:00"),
                 ("value", XVal.s "9.9")])]),
           ("acknowledgements", XVal.list
            [XVal.dict
              [("timestamp", XVal.s "cAck"),
               ("identification", XVal.s "idAck"),
               ("energy_business_process", XVal.s "eAck"),
               ("status_type", XVal.s "OK"),
               ("response_reason_type", XVal.s "E29"),
               ("original_business_document_reference", XVal.s "orig")]])]) ∧
    __metering_decomposition
        (mkMeteringInput (XVal.s "mpB") (XVal.s "cB") (XVal.s "idB") (XVal.s "eB")
          (XVal.s "2023-06-01T00:00:00+02:00") (XVal.s "endB") (XVal.s "PT1H")
          (XVal.s "KWH") XVal.null
          (XVal.dict [("Metered", XVal.dict [("#text", XVal.s "9.9")])]))
      = .ok (mkMeteringOutput (XVal.s "mpB") (XVal.s "cB") (XVal.s "idB") (XVal.s "eB")
          (XVal.s "2023-06-01T00:00:00+02:00") (XVal.s "endB") (XVal.s "PT1H")
          (XVal.s "KWH")
          (XVal.dict
            [("timestamp", XVal.s "2023-06-01T00:00:00+02:00"),
             ("value", XVal.s "9.9")])) := by
  have T := c8_source_order_preserved
    [XVal.dict
      [("Header", XVal.dict
        [("Creation", XVal.s "cAck"), ("Identification", XVal.s "idAck")]),
       ("ProcessEnergyContext", XVal.dict
        [("EnergyBusinessProcess", XVal.dict [("#text", XVal.s "eAck")])]),
       ("PayloadResponseEvent", XVal.dict
        [("StatusType", XVal.dict [("#text", XVal.s "OK")]),
         ("ResponseReasonType", XVal.dict [("#text", XVal.s "E29")]),
         ("OriginalBusinessDocumentReference", XVal.s "orig")])]]
    [mkMeteringInput (XVal.s "mpA") (XVal.s "cA") (XVal.s "idA") (XVal.s "eA")
      (XVal.s "sA") (XVal.s "endA") (XVal.s "PT1H") (XVal.s "KWH")
      XVal.null XVal.null,
     mkMeteringInput (XVal.s "mpB") (XVal.s "cB") (XVal.s "idB") (XVal.s "eB")
      (XVal.s "2023-06-01T00:00:00+02:00") (XVal.s "endB") (XVal.s "PT1H")
      (XVal.s "KWH") XVal.null
      (XVal.dict [("Metered", XVal.dict [("#text", XVal.s "9.9")])])]
    [XVal.null,
     mkMeteringOutput (XVal.s "mpB") (XVal.s "cB") (XVal.s "idB") (XVal.s "eB")
      (XVal.s "2023-06-01T00:00:00+02:00") (XVal.s "endB") (XVal.s "PT1H")
      (XVal.s "KWH")
      (XVal.dict
        [("timestamp", XVal.s "2023-06-01T00:00:00+02:00"),
         ("value", XVal.s "9.9")])]
    [XVal.dict
      [("timestamp", XVal.s "cAck"),
       ("identification", XVal.s "idAck"),
       ("energy_business_process", XVal.s "eAck"),
       ("status_type", XVal.s "OK"),
       ("response_reason_type", XVal.s "E29"),
       ("original_business_document_reference", XVal.s "orig")]]
    rfl rfl
  exact ⟨T.1, T.2.2.2.1 1 _ _ rfl rfl⟩

/-- C10: the single-occurrence wrap is applied only to the two top-level
collections; a metering record whose Observation value is a single
mapping is iterated key-by-key (Python dict iteration), so the first
comprehension step calls a string method get and the decomposition fails
with the attribute error instead of producing a one-element observation
sequence. -/
theorem c10_single_observation_dict_fails
    (mp cr idv ebp endv resolv unitv profv : XVal) (startStr : String)
    (st : PyDateTime) (k : String) (v : XVal) (rest : List (String × XVal))
    (hst : strptimeCore startStr = some st) :
    __metering_decomposition
        (mkMeteringInput mp cr idv ebp (XVal.s startStr) endv resolv unitv
          (XVal.dict ((k, v) :: rest)) profv)
      = .error Err.attrError := by
  simp [__metering_decomposition, mkMeteringInput, XVal.get, XVal.getD,
    List.lookup, XVal.isTruthy, strptimeTZ, hst, XVal.pyIter, mapRes,
    observationItem]

/-- Witness for C10: a one-entry Observation mapping makes the
decomposition fail. -/
theorem c10_single_observation_dict_fails_witness :
    __metering_decomposition
        (mkMeteringInput (XVal.s "mp") (XVal.s "c") (XVal.s "i") (XVal.s "e")
          (XVal.s "2023-01-01T00:00:00+01:00") (XVal.s "end") (XVal.s "PT1H")
          (XVal.s "KWH")
          (XVal.dict [("@Sequence", XVal.s "0")]) XVal.null)
      = .error Err.attrError :=
  c10_single_observation_dict_fails (XVal.s "mp") (XVal.s "c") (XVal.s "i") (XVal.s "e")
    (XVal.s "end") (XVal.s "PT1H") (XVal.s "KWH") XVal.null
    "2023-01-01T00:00:00+01:00" ⟨2023, 1, 1, 0, 0, 0, 60⟩
    "@Sequence" (XVal.s "0") [] rfl

/-- Counterexample for C6: with a ProfiledObservation record whose
start_time uses the +HHMM offset form (accepted by the parse format),
the output timestamp is the re-serialized +HH:MM form, not the
start_time string verbatim. -/
theorem c6_counterexample_not_verbatim :
    __metering_decomposition
        (mkMeteringInput (XVal.s "mp") (XVal.s "c") (XVal.s "i") (XVal.s "e")
          (XVal.s "2023-01-01T00:00:00+0100") (XVal.s "end") (XVal.s "PT1H")
          (XVal.s "KWH") XVal.null
          (XVal.dict [("Metered", XVal.dict [("#text", XVal.s "5.0")])]))
      = .ok (mkMeteringOutput (XVal.s "mp") (XVal.s "c") (XVal.s "i") (XVal.s "e")
          (XVal.s "2023-01-01T00:00:00+0100") (XVal.s "end") (XVal.s "PT1H")
          (XVal.s "KWH")
          (XVal.dict
            [("timestamp", XVal.s "2023-01-01T00:00:00+01:00"),
             ("value", XVal.s "5.0")])) ∧
    ("2023-01-01T00:00:00+01:00" : String) ≠ "2023-01-01T00:00:00+0100" :=
  ⟨rfl, by decide⟩

/-- C6 (amended): for a metering record with no Observation collection
and a ProfiledObservation, the observations output is a single
timestamp/value mapping (not a sequence) whose timestamp is the
ISO-8601 re-serialization of the parsed start_time — equal to
start_time verbatim exactly when start_time is already in ±HH:MM form —
and whose value is the nested Metered text. -/
theorem c6_profiled_single_mapping
    (mp cr idv ebp endv resolv unitv mtxt : XVal) (startStr : String)
    (st : PyDateTime) (hst : strptimeCore startStr = some st) :
    __metering_decomposition
        (mkMeteringInput mp cr idv ebp (XVal.s startStr) endv resolv unitv
          XVal.null (XVal.dict [("Metered", XVal.dict [("#text", mtxt)])]))
      = .ok (mkMeteringOutput mp cr idv ebp (XVal.s startStr) endv resolv unitv
          (XVal.dict [("timestamp", XVal.s st.isoformat), ("value", mtxt)])) := by
  simp [__metering_decomposition, mkMeteringInput, mkMeteringOutput, XVal.get,
    XVal.getD, List.lookup, XVal.isTruthy, strptimeTZ, hst]

/-- Witness for C6 (amended): with a canonical ±HH:MM start_time the
emitted timestamp coincides with start_time. -/
theorem c6_profiled_single_mapping_witness :
    __metering_decomposition
        (mkMeteringInput (XVal.s "mp") (XVal.s "c") (XVal.s "i") (XVal.s "e")
          (XVal.s "2023-01-01T00:00:00+01:00") (XVal.s "end") (XVal.s "PT1H")
          (XVal.s "KWH") XVal.null
          (XVal.dict [("Metered", XVal.dict [("#text", XVal.s "5.0")])]))
      = .ok (mkMeteringOutput (XVal.s "mp") (XVal.s "c") (XVal.s "i") (XVal.s "e")
          (XVal.s "2023-01-01T00:00:00+01:00") (XVal.s "end") (XVal.s "PT1H")
          (XVal.s "KWH")
          (XVal.dict
            [("timestamp", XVal.s "2023-01-01T00:00:00+01:00"),
             ("value", XVal.s "5.0")])) :=
  c6_profiled_single_mapping (XVal.s "mp") (XVal.s "c") (XVal.s "i") (XVal.s "e")
    (XVal.s "end") (XVal.s "PT1H") (XVal.s "KWH") (XVal.s "5.0")
    "2023-01-01T00:00:00+01:00" ⟨2023, 1, 1, 0, 0, 0, 60⟩ rfl

/-- Counterexample for C5: an Observation item whose Metered field is
present but empty (an empty XML element becomes None). The claim as
stated predicts the Metered field (None) as the output value; the code
tests truthiness, falls into the nested-leaf branch, and outputs the
quality-tag inner text instead. -/
theorem c5_counterexample_present_but_empty :
    List.lookup "Metered"
        [("@Sequence", XVal.s "0"),
         ("Q56", XVal.dict [("#text", XVal.s "7.7")]),
         ("Metered", XVal.null)] = some XVal.null ∧
    __metering_decomposition
        (mkMeteringInput (XVal.s "mp") (XVal.s "c") (XVal.s "i") (XVal.s "e")
          (XVal.s "2023-01-01T00:00:00+01:00") (XVal.s "end") (XVal.s "PT1H")
          (XVal.s "KWH")
          (XVal.list
            [XVal.dict
              [("@Sequence", XVal.s "0"),
               ("Q56", XVal.dict [("#text", XVal.s "7.7")]),
               ("Metered", XVal.null)]])
          XVal.null)
      = .ok (mkMeteringOutput (XVal.s "mp") (XVal.s "c") (XVal.s "i") (XVal.s "e")
          (XVal.s "2023-01-01T00:00:00+01:00") (XVal.s "end") (XVal.s "PT1H")
          (XVal.s "KWH")
          (XVal.list
            [XVal.dict
              [("timestamp", XVal.s "2023-01-01T00:00:00+01:00"),
               ("value", XVal.s "7.7")]])) ∧
    XVal.s "7.7" ≠ XVal.null :=
  ⟨rfl, rfl, fun h => XVal.noConfusion h⟩

/-- C5 (amended): for an Observation item, the output value is the
item's direct Metered field when that field is present and non-empty
(truthy); otherwise the value is the inner text of the item's second
entry — the first non-identifying child element when the item carries
exactly its sequence attribute before it. -/
theorem c5_value_extraction (st : PyDateTime) :
    (∀ (kvs : List (String × XVal)) (v : XVal) (sq : String) (n : Int),
      kvs.lookup "Metered" = some v → v.isTruthy = true →
      kvs.lookup "@Sequence" = some (XVal.s sq) → parseIntStr sq = some n →
      (st.shiftHours n).inRange = true →
      observationItem st (XVal.dict kvs)
        = .ok (XVal.dict
            [("timestamp", XVal.s (st.shiftHours n).isoformat), ("value", v)])) ∧
    (∀ (sq : String) (n : Int) (qtag : String) (qkvs : List (String × XVal))
        (txt : XVal),
      parseIntStr sq = some n → (st.shiftHours n).inRange = true →
      qtag ≠ "Metered" → qkvs.lookup "#text" = some txt →
      observationItem st (XVal.dict [("@Sequence", XVal.s sq), (qtag, XVal.dict qkvs)])
        = .ok (XVal.dict
            [("timestamp", XVal.s (st.shiftHours n).isoformat), ("value", txt)])) := by
  constructor
  · intro kvs v sq n h1 h2 h3 h4 h5
    simp [observationItem, XVal.get, XVal.getD, h1, h2, h3, pyInt, h4,
      PyDateTime.addHours, h5]
  · intro sq n qtag qkvs txt h1 h2 hq h4
    have hbeq : (("Metered" : String) == qtag) = false :=
      beq_eq_false_iff_ne.mpr (Ne.symm hq)
    simp [observationItem, XVal.get, XVal.getD, List.lookup, hbeq,
      XVal.isTruthy, pyInt, h1, PyDateTime.addHours, h2, XVal.pyValues,
      pyIndex, h4]

/-- Witness for C5 (amended) at concrete items for both branches. -/
theorem c5_value_extraction_witness :
    observationItem ⟨2023, 1, 1, 0, 0, 0, 60⟩
        (XVal.dict [("@Sequence", XVal.s "0"), ("Metered", XVal.s "1.5")])
      = .ok (XVal.dict
          [("timestamp", XVal.s "2023-01-01T00:00:00+01:00"),
           ("value", XVal.s "1.5")]) ∧
    observationItem ⟨2023, 1, 1, 0, 0, 0, 60⟩
        (XVal.dict [("@Sequence", XVal.s "1"), ("Q56", XVal.dict [("#text", XVal.s "2.5")])])
      = .ok (XVal.dict
          [("timestamp", XVal.s "2023-01-01T01:00:00+01:00"),
           ("value", XVal.s "2.5")]) :=
  ⟨(c5_value_extraction ⟨2023, 1, 1, 0, 0, 0, 60⟩).1
      [("@Sequence", XVal.s "0"), ("Metered", XVal.s "1.5")]
      (XVal.s "1.5") "0" 0 rfl rfl rfl rfl rfl,
   (c5_value_extraction ⟨2023, 1, 1, 0, 0, 0, 60⟩).2
      "1" 1 "Q56" [("#text", XVal.s "2.5")] (XVal.s "2.5")
      rfl rfl (by decide) rfl⟩

theorem mapRes_obsEncode (st : PyDateTime) (l : List (String × Int × XVal))
    (h : ∀ p ∈ l, parseIntStr p.1 = some p.2.1 ∧ p.2.2.isTruthy = true ∧
      (st.shiftHours p.2.1).inRange = true) :
    mapRes (observationItem st) (l.map obsEncode) = .ok (l.map (obsExpected st)) := by
  induction l with
  | nil => simp [mapRes]
  | cons p ps ih =>
    obtain ⟨h1, h2, h3⟩ := h p (by simp)
    have hrest : ∀ q ∈ ps, parseIntStr q.1 = some q.2.1 ∧ q.2.2.isTruthy = true ∧
        (st.shiftHours q.2.1).inRange = true :=
      fun q hq => h q (by simp [hq])
    have hitem : observationItem st (obsEncode p) = .ok (obsExpected st p) := by
      simp [observationItem, obsEncode, obsExpected, XVal.get, XVal.getD,
        List.lookup, h2, pyInt, h1, PyDateTime.addHours, h3]
    simp [mapRes, hitem, ih hrest]

/-- C1: for a metering record whose Observation items carry integer
sequence attributes and whose start_time parses as a timezone-aware
timestamp, each output observation keeps the source order and its
timestamp is the full ISO-8601 rendering (offset included) of
start_time shifted by sequence-index hours, with the item's Metered
value carried over. -/
theorem c1_observation_timestamps
    (mp cr idv ebp endv resolv unitv : XVal) (startStr : String) (st : PyDateTime)
    (p0 : String × Int × XVal) (ps : List (String × Int × XVal))
    (hst : strptimeCore startStr = some st)
    (hall : ∀ p ∈ p0 :: ps, parseIntStr p.1 = some p.2.1 ∧ p.2.2.isTruthy = true ∧
      (st.shiftHours p.2.1).inRange = true) :
    __metering_decomposition
        (mkMeteringInput mp cr idv ebp (XVal.s startStr) endv resolv unitv
          (XVal.list ((p0 :: ps).map obsEncode)) XVal.null)
      = .ok (mkMeteringOutput mp cr idv ebp (XVal.s startStr) endv resolv unitv
          (XVal.list ((p0 :: ps).map (obsExpected st)))) := by
  have hm := mapRes_obsEncode st (p0 :: ps) hall
  simp only [List.map_cons] at hm
  simp [__metering_decomposition, mkMeteringInput, mkMeteringOutput, XVal.get,
    XVal.getD, List.lookup, XVal.isTruthy, strptimeTZ, hst, XVal.pyIter, hm]

/-- Witness for C1: sequence indices 0, 1, 2 with
start_time 2023-01-01T00:00:00+01:00 yield the three hourly timestamps
of the specification, in source order. -/
theorem c1_observation_timestamps_witness :
    strptimeCore "2023-01-01T00:00:00+01:00"
      = some ⟨2023, 1, 1, 0, 0, 0, 60⟩ ∧
    __metering_decomposition
        (mkMeteringInput (XVal.s "mp") (XVal.s "c") (XVal.s "i") (XVal.s "e")
          (XVal.s "2023-01-01T00:00:00+01:00") (XVal.s "end") (XVal.s "PT1H")
          (XVal.s "KWH")
          (XVal.list
            [XVal.dict [("@Sequence", XVal.s "0"), ("Metered", XVal.s "1.5")],
             XVal.dict [("@Sequence", XVal.s "1"), ("Metered", XVal.s "2.5")],
             XVal.dict [("@Sequence", XVal.s "2"), ("Metered", XVal.s "3.5")]])
          XVal.null)
      = .ok (mkMeteringOutput (XVal.s "mp") (XVal.s "c") (XVal.s "i") (XVal.s "e")
          (XVal.s "2023-01-01T00:00:00+01:00") (XVal.s "end") (XVal.s "PT1H")
          (XVal.s "KWH")
          (XVal.list
            [XVal.dict
              [("timestamp", XVal.s "2023-01-01T00:00:00+01:00"),
               ("value", XVal.s "1.5")],
             XVal.dict
              [("timestamp", XVal.s "2023-01-01T01:00:00+01:00"),
               ("value", XVal.s "2.5")],
             XVal.dict
              [("timestamp", XVal.s "2023-01-01T02:00:00+01:00"),
               ("value", XVal.s "3.5")]])) :=
  ⟨rfl,
   c1_observation_timestamps (XVal.s "mp") (XVal.s "c") (XVal.s "i") (XVal.s "e")
    (XVal.s "end") (XVal.s "PT1H") (XVal.s "KWH") "2023-01-01T00:00:00+01:00"
    ⟨2023, 1, 1, 0, 0, 0, 60⟩
    ("0", 0, XVal.s "1.5") [("1", 1, XVal.s "2.5"), ("2", 2, XVal.s "3.5")]
    rfl (by decide)⟩
